import Mathlib

/-!
Shallow embedding of the Customer Issue Resolution System
(src/LLD/backend/Customer Issue Resolution System/main.py).

Python objects become Lean structures; in-place mutation becomes explicit
state passing (a mutating method returns the updated object); a raised
exception becomes an Except.error carrying the exception's message string;
datetime.now() becomes an explicit clock value (a Nat) passed to every
operation that reads the clock; uuid generation becomes an explicitly
supplied fresh identifier string. The Python dict backing the in-memory
repository is embedded as an insertion-ordered association list whose
update rewrites the first entry with the given key in place and appends
when the key is absent, matching dict assignment semantics.
-/

namespace CIRS

/-- Embeds enum IssueStatus (main.py lines 12-16). -/
inductive IssueStatus
  | OPEN
  | IN_PROGRESS
  | RESOLVED
  | CLOSED
deriving DecidableEq, Repr

/-- Position of a status in the lifecycle ordering
OPEN, IN_PROGRESS, RESOLVED, CLOSED used by the spec. -/
def IssueStatus.rank : IssueStatus → Nat
  | .OPEN => 0
  | .IN_PROGRESS => 1
  | .RESOLVED => 2
  | .CLOSED => 3

/-- Embeds enum Priority (main.py lines 19-22). -/
inductive Priority
  | LOW
  | MEDIUM
  | HIGH
deriving DecidableEq, Repr

/-- Embeds class Customer (main.py lines 29-33). -/
structure Customer where
  customer_id : String
  name : String
  email : String
deriving DecidableEq, Repr

/-- Embeds class Agent (main.py lines 36-40); active_issues starts empty. -/
structure Agent where
  agent_id : String
  name : String
  active_issues : List String
deriving DecidableEq, Repr

/-- Embeds class Issue's fields (main.py lines 43-55). -/
structure Issue where
  issue_id : String
  title : String
  description : String
  customer : Customer
  priority : Priority
  status : IssueStatus
  agent : Option Agent
  created_at : Nat
  updated_at : Nat
  history : List String
deriving DecidableEq, Repr

/-- Embeds Issue.__init__ (main.py lines 44-55): the generated uuid and the
construction-time clock reading are explicit parameters. -/
def Issue.new (issue_id title description : String) (customer : Customer)
    (priority : Priority) (now : Nat) : Issue :=
  { issue_id := issue_id
    title := title
    description := description
    customer := customer
    priority := priority
    status := IssueStatus.OPEN
    agent := none
    created_at := now
    updated_at := now
    history := [] }

/-- Embeds Issue._add_history (main.py lines 77-79): appends one
timestamped record to the history. -/
def Issue.add_history (i : Issue) (now : Nat) (action : String) : Issue :=
  { i with history := i.history ++ [toString now ++ " - " ++ action] }

/-- Embeds Issue.assign_agent (main.py lines 57-61). In the source the
stored agent reference and the passed agent are the same mutated object,
so the issue ends up holding the agent with this issue's id appended to
active_issues; the pair returned here is (updated issue, updated agent). -/
def Issue.assign_agent (i : Issue) (agent : Agent) (now : Nat) : Issue × Agent :=
  let agent' : Agent := { agent with active_issues := agent.active_issues ++ [i.issue_id] }
  let i' : Issue := { i with agent := some agent', status := IssueStatus.IN_PROGRESS }
  (i'.add_history now ("Issue assigned to agent " ++ agent.name), agent')

/-- Embeds Issue.resolve (main.py lines 63-68). -/
def Issue.resolve (i : Issue) (now : Nat) : Except String Issue :=
  if i.status ≠ IssueStatus.IN_PROGRESS then
    Except.error "Issue must be IN_PROGRESS to resolve."
  else
    Except.ok (Issue.add_history
      { i with status := IssueStatus.RESOLVED, updated_at := now } now "Issue resolved")

/-- Embeds Issue.close (main.py lines 70-75). -/
def Issue.close (i : Issue) (now : Nat) : Except String Issue :=
  if i.status ≠ IssueStatus.RESOLVED then
    Except.error "Issue must be RESOLVED to close."
  else
    Except.ok (Issue.add_history
      { i with status := IssueStatus.CLOSED, updated_at := now } now "Issue closed")

/-- One lifecycle operation invoked directly on an Issue, with the clock
reading at call time. -/
inductive IssueOp
  | assignOp (agent : Agent) (now : Nat)
  | resolveOp (now : Nat)
  | closeOp (now : Nat)
deriving Repr

/-- Runs one lifecycle operation, returning the error message when the
operation raises. -/
def applyOpE (i : Issue) : IssueOp → Except String Issue
  | .assignOp a t => Except.ok (i.assign_agent a t).1
  | .resolveOp t => i.resolve t
  | .closeOp t => i.close t

/-- Post-state of the issue after one lifecycle operation: a raised
exception leaves the issue exactly as it was. -/
def applyOp (i : Issue) (op : IssueOp) : Issue :=
  match applyOpE i op with
  | Except.ok i' => i'
  | Except.error _ => i

/-- Post-state of the issue after a sequence of lifecycle operations. -/
def runOps (i : Issue) (ops : List IssueOp) : Issue :=
  ops.foldl applyOp i

/-- Embeds InMemoryIssueRepository's dict (main.py line 108) as an
insertion-ordered association list keyed by issue_id. -/
abbrev Repo := List (String × Issue)

/-- Embeds InMemoryIssueRepository.save (main.py lines 110-111): dict
assignment keyed by issue.issue_id, rewriting the first entry with that
key in place and appending when the key is absent. -/
def Repo.save (r : Repo) (i : Issue) : Repo :=
  match r with
  | [] => [(i.issue_id, i)]
  | (k, v) :: rest =>
    if k = i.issue_id then (k, i) :: rest else (k, v) :: Repo.save rest i

/-- Embeds InMemoryIssueRepository.get_by_id (main.py lines 113-114). -/
def Repo.get_by_id (r : Repo) (issue_id : String) : Option Issue :=
  (r.find? (fun p => decide (p.1 = issue_id))).map Prod.snd

/-- Embeds InMemoryIssueRepository.get_all (main.py lines 116-117). -/
def Repo.get_all (r : Repo) : List Issue :=
  r.map Prod.snd

/-- Number of repository entries stored under a given issue_id. -/
def keyCount (r : Repo) (issue_id : String) : Nat :=
  (r.filter (fun p => decide (p.1 = issue_id))).length

/-- Embeds IssueService.create_issue (main.py lines 129-133), the uuid and
clock made explicit; returns the updated repository and the new issue. -/
def create_issue (r : Repo) (issue_id title description : String)
    (customer : Customer) (priority : Priority) (now : Nat) : Repo × Issue :=
  let issue := Issue.new issue_id title description customer priority now
  (Repo.save r issue, issue)

/-- Embeds IssueService.assign_issue (main.py lines 135-138), the lookup
going through _get_issue_or_raise (lines 162-166). -/
def assign_issue (r : Repo) (issue_id : String) (agent : Agent) (now : Nat) :
    Except String Repo :=
  match Repo.get_by_id r issue_id with
  | none => Except.error "Issue not found"
  | some issue => Except.ok (Repo.save r (issue.assign_agent agent now).1)

/-- Embeds IssueService.resolve_issue (main.py lines 140-143). -/
def resolve_issue (r : Repo) (issue_id : String) (now : Nat) : Except String Repo :=
  match Repo.get_by_id r issue_id with
  | none => Except.error "Issue not found"
  | some issue =>
    match issue.resolve now with
    | Except.error e => Except.error e
    | Except.ok i' => Except.ok (Repo.save r i')

/-- Embeds IssueService.close_issue (main.py lines 145-148). -/
def close_issue (r : Repo) (issue_id : String) (now : Nat) : Except String Repo :=
  match Repo.get_by_id r issue_id with
  | none => Except.error "Issue not found"
  | some issue =>
    match issue.close now with
    | Except.error e => Except.error e
    | Except.ok i' => Except.ok (Repo.save r i')

/-- Embeds IssueService.get_issues_by_status (main.py lines 150-154). -/
def get_issues_by_status (r : Repo) (status : IssueStatus) : List Issue :=
  (Repo.get_all r).filter (fun i => decide (i.status = status))

/-- Embeds IssueService.get_issues_by_agent (main.py lines 156-160): an
issue with no agent is filtered out by the truthiness test on the agent
field before the id comparison. -/
def get_issues_by_agent (r : Repo) (agent_id : String) : List Issue :=
  (Repo.get_all r).filter (fun i =>
    match i.agent with
    | some a => decide (a.agent_id = agent_id)
    | none => false)

/-- One service-level operation with its call-time clock reading. -/
inductive ServiceOp
  | createOp (issue_id title description : String)
      (customer : Customer) (priority : Priority) (now : Nat)
  | assignIssueOp (issue_id : String) (agent : Agent) (now : Nat)
  | resolveIssueOp (issue_id : String) (now : Nat)
  | closeIssueOp (issue_id : String) (now : Nat)

/-- Post-state of the repository after one service call: a raised
exception leaves the repository exactly as it was. -/
def applyServiceOp (r : Repo) : ServiceOp → Repo
  | .createOp id title descr c p t => (create_issue r id title descr c p t).1
  | .assignIssueOp id a t =>
    match assign_issue r id a t with
    | Except.ok r' => r'
    | Except.error _ => r
  | .resolveIssueOp id t =>
    match resolve_issue r id t with
    | Except.ok r' => r'
    | Except.error _ => r
  | .closeIssueOp id t =>
    match close_issue r id t with
    | Except.ok r' => r'
    | Except.error _ => r

/-- Concrete customer used by witnesses, mirroring the driver (main.py line 179). -/
def custEx : Customer := ⟨"C1", "John Doe", "john@example.com"⟩

/-- Concrete agent used by witnesses, mirroring the driver (main.py line 180). -/
def agentEx : Agent := ⟨"A1", "Agent Smith", []⟩

/-- Concrete freshly created issue used by witnesses, mirroring the driver
(main.py lines 183-188) with identifier I1 and creation time 0. -/
def issueEx : Issue :=
  Issue.new "I1" "Payment Failure" "Payment not going through" custEx Priority.HIGH 0

/-- The concrete issue after assignment at time 1. -/
def issueInProgEx : Issue := (issueEx.assign_agent agentEx 1).1

/-- The concrete issue after assignment at time 1 and resolution at time 2. -/
def issueResolvedEx : Issue :=
  Issue.add_history
    { issueInProgEx with status := IssueStatus.RESOLVED, updated_at := 2 } 2 "Issue resolved"

/-- The concrete issue after assignment, resolution and closing at time 3. -/
def issueClosedEx : Issue :=
  Issue.add_history
    { issueResolvedEx with status := IssueStatus.CLOSED, updated_at := 3 } 3 "Issue closed"

/-- Concrete one-issue repository used by witnesses. -/
def repoEx : Repo := [("I1", issueEx)]

/-- Characterisation of a successful resolve call. -/
theorem resolve_eq_ok (i : Issue) (t : Nat) (i' : Issue) :
    i.resolve t = Except.ok i' ↔
      i.status = IssueStatus.IN_PROGRESS ∧
      i' = Issue.add_history
        { i with status := IssueStatus.RESOLVED, updated_at := t } t "Issue resolved" := by
  unfold Issue.resolve
  split
  · next hne => simp [hne]
  · next hne =>
    simp only [ne_eq, not_not] at hne
    constructor
    · intro h
      injection h with h2
      exact ⟨hne, h2.symm⟩
    · rintro ⟨-, rfl⟩
      rfl

/-- Characterisation of a successful close call. -/
theorem close_eq_ok (i : Issue) (t : Nat) (i' : Issue) :
    i.close t = Except.ok i' ↔
      i.status = IssueStatus.RESOLVED ∧
      i' = Issue.add_history
        { i with status := IssueStatus.CLOSED, updated_at := t } t "Issue closed" := by
  unfold Issue.close
  split
  · next hne => simp [hne]
  · next hne =>
    simp only [ne_eq, not_not] at hne
    constructor
    · intro h
      injection h with h2
      exact ⟨hne, h2.symm⟩
    · rintro ⟨-, rfl⟩
      rfl

/-- A resolve call outside IN_PROGRESS raises the exception carried by the
source's raise statement. -/
theorem resolve_eq_error (i : Issue) (t : Nat)
    (h : i.status ≠ IssueStatus.IN_PROGRESS) :
    i.resolve t = Except.error "Issue must be IN_PROGRESS to resolve." := by
  unfold Issue.resolve
  rw [if_pos h]

/-- A close call outside RESOLVED raises the exception carried by the
source's raise statement. -/
theorem close_eq_error (i : Issue) (t : Nat)
    (h : i.status ≠ IssueStatus.RESOLVED) :
    i.close t = Except.error "Issue must be RESOLVED to close." := by
  unfold Issue.close
  rw [if_pos h]

/-- A failing resolve leaves the issue exactly as it was. -/
theorem applyOp_resolve_of_ne (i : Issue) (t : Nat)
    (h : i.status ≠ IssueStatus.IN_PROGRESS) :
    applyOp i (IssueOp.resolveOp t) = i := by
  show (match i.resolve t with | Except.ok i' => i' | Except.error _ => i) = i
  rw [resolve_eq_error i t h]

/-- A failing close leaves the issue exactly as it was. -/
theorem applyOp_close_of_ne (i : Issue) (t : Nat)
    (h : i.status ≠ IssueStatus.RESOLVED) :
    applyOp i (IssueOp.closeOp t) = i := by
  show (match i.close t with | Except.ok i' => i' | Except.error _ => i) = i
  rw [close_eq_error i t h]

/-- C2 counterexample: on a freshly created (OPEN) issue, resolve fails,
but the exception message carries a trailing period, so it differs from
the message text quoted by the claim. -/
theorem c2_counterexample :
    issueEx.status ≠ IssueStatus.IN_PROGRESS ∧
    issueEx.resolve 1 = Except.error "Issue must be IN_PROGRESS to resolve." ∧
    "Issue must be IN_PROGRESS to resolve." ≠ "Issue must be IN_PROGRESS to resolve" := by
  refine ⟨by decide, rfl, by decide⟩

/-- C2 (amended): resolve succeeds exactly when the status is IN_PROGRESS
immediately before the call; on success the status becomes RESOLVED,
updated_at is refreshed and one history entry is appended; otherwise it
fails with the message "Issue must be IN_PROGRESS to resolve." (trailing
period) and the issue, its status included, is left unchanged. -/
theorem c2_resolve_spec (i : Issue) (t : Nat) :
    ((∃ i', i.resolve t = Except.ok i') ↔ i.status = IssueStatus.IN_PROGRESS) ∧
    (∀ i', i.resolve t = Except.ok i' →
      i'.status = IssueStatus.RESOLVED ∧ i'.updated_at = t ∧
      i'.history = i.history ++ [toString t ++ " - " ++ "Issue resolved"]) ∧
    (i.status ≠ IssueStatus.IN_PROGRESS →
      i.resolve t = Except.error "Issue must be IN_PROGRESS to resolve." ∧
      applyOp i (IssueOp.resolveOp t) = i) := by
  refine ⟨?_, ?_, ?_⟩
  · constructor
    · rintro ⟨i', hi⟩
      exact ((resolve_eq_ok i t i').mp hi).1
    · intro hs
      exact ⟨_, (resolve_eq_ok i t _).mpr ⟨hs, rfl⟩⟩
  · intro i' hi
    obtain ⟨hs, rfl⟩ := (resolve_eq_ok i t i').mp hi
    exact ⟨rfl, rfl, rfl⟩
  · intro hne
    exact ⟨resolve_eq_error i t hne, applyOp_resolve_of_ne i t hne⟩

/-- C2 witness: the successful branch at the concrete assigned issue and
the failing branch at the concrete fresh issue. -/
theorem c2_witness :
    (issueResolvedEx.status = IssueStatus.RESOLVED ∧ issueResolvedEx.updated_at = 2 ∧
      issueResolvedEx.history =
        issueInProgEx.history ++ [toString 2 ++ " - " ++ "Issue resolved"]) ∧
    (issueEx.resolve 1 = Except.error "Issue must be IN_PROGRESS to resolve." ∧
      applyOp issueEx (IssueOp.resolveOp 1) = issueEx) :=
  ⟨(c2_resolve_spec issueInProgEx 2).2.1 issueResolvedEx rfl,
   (c2_resolve_spec issueEx 1).2.2 (by decide)⟩

/-- C3 counterexample: on a freshly created (OPEN) issue, close fails, but
the exception message carries a trailing period, so it differs from the
message text quoted by the claim. -/
theorem c3_counterexample :
    issueEx.status ≠ IssueStatus.RESOLVED ∧
    issueEx.close 1 = Except.error "Issue must be RESOLVED to close." ∧
    "Issue must be RESOLVED to close." ≠ "Issue must be RESOLVED to close" := by
  refine ⟨by decide, rfl, by decide⟩

/-- C3 (amended): close succeeds exactly when the status is RESOLVED
immediately before the call; on success the status becomes CLOSED,
updated_at is refreshed and one history entry is appended; otherwise it
fails with the message "Issue must be RESOLVED to close." (trailing
period) and the issue, its status included, is left unchanged. -/
theorem c3_close_spec (i : Issue) (t : Nat) :
    ((∃ i', i.close t = Except.ok i') ↔ i.status = IssueStatus.RESOLVED) ∧
    (∀ i', i.close t = Except.ok i' →
      i'.status = IssueStatus.CLOSED ∧ i'.updated_at = t ∧
      i'.history = i.history ++ [toString t ++ " - " ++ "Issue closed"]) ∧
    (i.status ≠ IssueStatus.RESOLVED →
      i.close t = Except.error "Issue must be RESOLVED to close." ∧
      applyOp i (IssueOp.closeOp t) = i) := by
  refine ⟨?_, ?_, ?_⟩
  · constructor
    · rintro ⟨i', hi⟩
      exact ((close_eq_ok i t i').mp hi).1
    · intro hs
      exact ⟨_, (close_eq_ok i t _).mpr ⟨hs, rfl⟩⟩
  · intro i' hi
    obtain ⟨hs, rfl⟩ := (close_eq_ok i t i').mp hi
    exact ⟨rfl, rfl, rfl⟩
  · intro hne
    exact ⟨close_eq_error i t hne, applyOp_close_of_ne i t hne⟩

/-- C3 witness: the successful branch at the concrete resolved issue and
the failing branch at the concrete fresh issue. -/
theorem c3_witness :
    (issueClosedEx.status = IssueStatus.CLOSED ∧ issueClosedEx.updated_at = 3 ∧
      issueClosedEx.history =
        issueResolvedEx.history ++ [toString 3 ++ " - " ++ "Issue closed"]) ∧
    (issueEx.close 1 = Except.error "Issue must be RESOLVED to close." ∧
      applyOp issueEx (IssueOp.closeOp 1) = issueEx) :=
  ⟨(c3_close_spec issueResolvedEx 3).2.1 issueClosedEx rfl,
   (c3_close_spec issueEx 1).2.2 (by decide)⟩

/-- C4: assign imposes no precondition on the current status; it stores in
the issue the passed agent (the same object, whose active_issues collection
has gained this issue's identifier), forces the status to IN_PROGRESS, and
appends exactly one history entry. -/
theorem c4_assign_spec (i : Issue) (a : Agent) (t : Nat) :
    (i.assign_agent a t).1.agent = some (i.assign_agent a t).2 ∧
    (i.assign_agent a t).2.agent_id = a.agent_id ∧
    (i.assign_agent a t).2.name = a.name ∧
    (i.assign_agent a t).2.active_issues = a.active_issues ++ [i.issue_id] ∧
    (i.assign_agent a t).1.status = IssueStatus.IN_PROGRESS ∧
    (i.assign_agent a t).1.history =
      i.history ++ [toString t ++ " - " ++ ("Issue assigned to agent " ++ a.name)] :=
  ⟨rfl, rfl, rfl, rfl, rfl, rfl⟩

/-- A resolve call in IN_PROGRESS produces the resolved issue. -/
theorem applyOp_resolve_of_eq (i : Issue) (t : Nat)
    (hs : i.status = IssueStatus.IN_PROGRESS) :
    applyOp i (IssueOp.resolveOp t) = Issue.add_history
      { i with status := IssueStatus.RESOLVED, updated_at := t } t "Issue resolved" := by
  show (match i.resolve t with | Except.ok i' => i' | Except.error _ => i) = _
  rw [(resolve_eq_ok i t _).mpr ⟨hs, rfl⟩]

/-- A close call in RESOLVED produces the closed issue. -/
theorem applyOp_close_of_eq (i : Issue) (t : Nat)
    (hs : i.status = IssueStatus.RESOLVED) :
    applyOp i (IssueOp.closeOp t) = Issue.add_history
      { i with status := IssueStatus.CLOSED, updated_at := t } t "Issue closed" := by
  show (match i.close t with | Except.ok i' => i' | Except.error _ => i) = _
  rw [(close_eq_ok i t _).mpr ⟨hs, rfl⟩]

/-- C1 counterexample: starting from the freshly created issue, assigning,
resolving, then assigning again moves the status from RESOLVED back to
IN_PROGRESS, a backward transition along the lifecycle ordering. -/
theorem c1_counterexample :
    (runOps issueEx [IssueOp.assignOp agentEx 1, IssueOp.resolveOp 2]).status
        = IssueStatus.RESOLVED ∧
    (runOps issueEx
        [IssueOp.assignOp agentEx 1, IssueOp.resolveOp 2, IssueOp.assignOp agentEx 3]).status
        = IssueStatus.IN_PROGRESS ∧
    IssueStatus.rank IssueStatus.IN_PROGRESS < IssueStatus.rank IssueStatus.RESOLVED := by
  refine ⟨rfl, rfl, by decide⟩

/-- C1 (amended): every successful resolve or close advances the status by
exactly one step along OPEN, IN_PROGRESS, RESOLVED, CLOSED, but assign
sets the status to IN_PROGRESS from any prior status, so an assignment may
move the status backwards. -/
theorem c1_amended (i i' : Issue) (op : IssueOp)
    (h : applyOpE i op = Except.ok i') :
    (∃ a t, op = IssueOp.assignOp a t ∧ i'.status = IssueStatus.IN_PROGRESS) ∨
      IssueStatus.rank i'.status = IssueStatus.rank i.status + 1 := by
  cases op with
  | assignOp a t =>
    left
    refine ⟨a, t, rfl, ?_⟩
    injection h with h2
    rw [← h2]
    rfl
  | resolveOp t =>
    right
    have h' : i.resolve t = Except.ok i' := h
    obtain ⟨hs, rfl⟩ := (resolve_eq_ok i t i').mp h'
    rw [hs]
    rfl
  | closeOp t =>
    right
    have h' : i.close t = Except.ok i' := h
    obtain ⟨hs, rfl⟩ := (close_eq_ok i t i').mp h'
    rw [hs]
    rfl

/-- C1 witness: the resolve step of the concrete run advances the status
by exactly one position. -/
theorem c1_amended_witness :
    (∃ a t, IssueOp.resolveOp 2 = IssueOp.assignOp a t ∧
        issueResolvedEx.status = IssueStatus.IN_PROGRESS) ∨
      IssueStatus.rank issueResolvedEx.status = IssueStatus.rank issueInProgEx.status + 1 :=
  c1_amended issueInProgEx issueResolvedEx (IssueOp.resolveOp 2) rfl

/-- C5 counterexample: assigning the freshly created issue at time 5 is a
state transition (OPEN to IN_PROGRESS) yet leaves updated_at at its
creation value instead of refreshing it to the call time. -/
theorem c5_counterexample :
    (issueEx.assign_agent agentEx 5).1.status ≠ issueEx.status ∧
    (issueEx.assign_agent agentEx 5).1.updated_at = issueEx.updated_at ∧
    (issueEx.assign_agent agentEx 5).1.updated_at ≠ 5 := by
  refine ⟨by decide, rfl, by decide⟩

/-- C5 (amended): successful resolve and close refresh updated_at to the
call time, but assign leaves updated_at unchanged. -/
theorem c5_amended (i : Issue) (a : Agent) (t : Nat) :
    (i.assign_agent a t).1.updated_at = i.updated_at ∧
    (∀ i', i.resolve t = Except.ok i' → i'.updated_at = t) ∧
    (∀ i', i.close t = Except.ok i' → i'.updated_at = t) := by
  refine ⟨rfl, ?_, ?_⟩
  · intro i' hi
    obtain ⟨-, rfl⟩ := (resolve_eq_ok i t i').mp hi
    rfl
  · intro i' hi
    obtain ⟨-, rfl⟩ := (close_eq_ok i t i').mp hi
    rfl

/-- C5 witness: the concrete assign, resolve and close steps of the driver
run, showing assign keeps updated_at at 0 while resolve and close refresh
it to their call times. -/
theorem c5_amended_witness :
    (issueEx.assign_agent agentEx 1).1.updated_at = issueEx.updated_at ∧
    issueResolvedEx.updated_at = 2 ∧
    issueClosedEx.updated_at = 3 :=
  ⟨(c5_amended issueEx agentEx 1).1,
   (c5_amended issueInProgEx agentEx 2).2.1 issueResolvedEx rfl,
   (c5_amended issueResolvedEx agentEx 3).2.2 issueClosedEx rfl⟩

/-- An issue's agent reference is set exactly when its status is
IN_PROGRESS or later in the lifecycle ordering. -/
def agentStatusInv (i : Issue) : Prop :=
  i.agent.isSome = true ↔ 1 ≤ IssueStatus.rank i.status

/-- Each single lifecycle operation preserves the agent-status invariant. -/
theorem applyOp_inv (i : Issue) (op : IssueOp) (h : agentStatusInv i) :
    agentStatusInv (applyOp i op) := by
  unfold agentStatusInv at h ⊢
  cases op with
  | assignOp a t =>
    simp [applyOp, applyOpE, Issue.assign_agent, Issue.add_history, IssueStatus.rank]
  | resolveOp t =>
    by_cases hs : i.status = IssueStatus.IN_PROGRESS
    · have hsome : i.agent.isSome = true := h.mpr (by rw [hs]; decide)
      rw [applyOp_resolve_of_eq i t hs]
      simp [Issue.add_history, IssueStatus.rank, hsome]
    · rw [applyOp_resolve_of_ne i t hs]
      exact h
  | closeOp t =>
    by_cases hs : i.status = IssueStatus.RESOLVED
    · have hsome : i.agent.isSome = true := h.mpr (by rw [hs]; decide)
      rw [applyOp_close_of_eq i t hs]
      simp [Issue.add_history, IssueStatus.rank, hsome]
    · rw [applyOp_close_of_ne i t hs]
      exact h

/-- Any sequence of lifecycle operations preserves the agent-status
invariant. -/
theorem runOps_inv (ops : List IssueOp) (i : Issue) (h : agentStatusInv i) :
    agentStatusInv (runOps i ops) := by
  induction ops generalizing i with
  | nil => exact h
  | cons op rest ih => exact ih (applyOp i op) (applyOp_inv i op h)

/-- C6: a freshly created issue has status OPEN and no agent, and in every
state reachable from it through the lifecycle operations the agent
reference is set exactly when the status is IN_PROGRESS or later. -/
theorem c6_agent_iff_in_progress_or_later (issue_id title descr : String)
    (c : Customer) (p : Priority) (t : Nat) (ops : List IssueOp) :
    (Issue.new issue_id title descr c p t).status = IssueStatus.OPEN ∧
    (Issue.new issue_id title descr c p t).agent = none ∧
    ((runOps (Issue.new issue_id title descr c p t) ops).agent.isSome = true ↔
      1 ≤ IssueStatus.rank (runOps (Issue.new issue_id title descr c p t) ops).status) := by
  refine ⟨rfl, rfl, ?_⟩
  exact runOps_inv ops _ (by simp [agentStatusInv, Issue.new, IssueStatus.rank])

/-- C7: when the repository has no entry for an issue_id, each of the
three lifecycle service operations fails with the message of the
exception raised by the lookup helper. -/
theorem c7_unknown_issue_id (r : Repo) (issue_id : String) (a : Agent) (t : Nat)
    (h : Repo.get_by_id r issue_id = none) :
    assign_issue r issue_id a t = Except.error "Issue not found" ∧
    resolve_issue r issue_id t = Except.error "Issue not found" ∧
    close_issue r issue_id t = Except.error "Issue not found" := by
  unfold assign_issue resolve_issue close_issue
  rw [h]
  exact ⟨rfl, rfl, rfl⟩

/-- C7 witness: the three service operations on the empty repository. -/
theorem c7_witness :
    assign_issue [] "missing" agentEx 0 = Except.error "Issue not found" ∧
    resolve_issue [] "missing" 0 = Except.error "Issue not found" ∧
    close_issue [] "missing" 0 = Except.error "Issue not found" :=
  c7_unknown_issue_id [] "missing" agentEx 0 rfl

/-- Saving an issue makes it retrievable under its own issue_id. -/
theorem get_by_id_save (r : Repo) (i : Issue) :
    Repo.get_by_id (Repo.save r i) i.issue_id = some i := by
  induction r with
  | nil => simp [Repo.save, Repo.get_by_id]
  | cons p rest ih =>
    obtain ⟨k, v⟩ := p
    unfold Repo.save
    by_cases hk : k = i.issue_id
    · rw [if_pos hk]
      simp [Repo.get_by_id, List.find?_cons, hk]
    · rw [if_neg hk]
      unfold Repo.get_by_id at ih ⊢
      rw [List.find?_cons_of_neg _ (by simpa using hk)]
      exact ih

/-- Number of entries a cons contributes under a given key. -/
theorem keyCount_cons (k : String) (v : Issue) (r : Repo) (issue_id : String) :
    keyCount ((k, v) :: r) issue_id =
      (if k = issue_id then 1 else 0) + keyCount r issue_id := by
  unfold keyCount
  by_cases hk : k = issue_id
  · simp [List.filter_cons, hk, Nat.add_comm]
  · simp [List.filter_cons, hk]

/-- Saving into a repository holding at most one entry under the issue's
id leaves exactly one entry under that id. -/
theorem keyCount_save (r : Repo) (i : Issue) (h : keyCount r i.issue_id ≤ 1) :
    keyCount (Repo.save r i) i.issue_id = 1 := by
  induction r with
  | nil => simp [Repo.save, keyCount]
  | cons p rest ih =>
    obtain ⟨k, v⟩ := p
    rw [keyCount_cons] at h
    unfold Repo.save
    by_cases hk : k = i.issue_id
    · rw [if_pos hk, keyCount_cons, if_pos hk]
      rw [if_pos hk] at h
      omega
    · rw [if_neg hk, keyCount_cons, if_neg hk]
      rw [if_neg hk] at h
      have := ih (by omega)
      omega

/-- Saving the same issue twice equals saving it once. -/
theorem save_save_same (r : Repo) (i : Issue) :
    Repo.save (Repo.save r i) i = Repo.save r i := by
  induction r with
  | nil => simp [Repo.save]
  | cons p rest ih =>
    obtain ⟨k, v⟩ := p
    unfold Repo.save
    by_cases hk : k = i.issue_id
    · simp [Repo.save, hk]
    · simp [Repo.save, hk, ih]

/-- C8: save is an upsert keyed by issue_id: in a repository holding at
most one entry per key (as a dict does), a saved issue is retrievable, a
second save under the same issue_id overwrites the first so that exactly
one entry remains holding the latest value, and saving the same issue
twice leaves the repository identical to saving it once. -/
theorem c8_save_upsert (r : Repo) (i i' : Issue)
    (hdict : keyCount r i.issue_id ≤ 1) (hid : i'.issue_id = i.issue_id) :
    Repo.get_by_id (Repo.save r i) i.issue_id = some i ∧
    Repo.get_by_id (Repo.save (Repo.save r i) i') i.issue_id = some i' ∧
    keyCount (Repo.save (Repo.save r i) i') i.issue_id = 1 ∧
    Repo.save (Repo.save r i) i = Repo.save r i := by
  refine ⟨get_by_id_save r i, ?_, ?_, save_save_same r i⟩
  · rw [← hid]
    exact get_by_id_save (Repo.save r i) i'
  · rw [← hid]
    refine keyCount_save (Repo.save r i) i' ?_
    rw [hid]
    exact Nat.le_of_eq (keyCount_save r i hdict)

/-- A second version of the concrete issue carrying the same issue_id but
different field values. -/
def issueEx2 : Issue := { issueEx with title := "Payment Failure (edited)" }

/-- C8 witness: saving the concrete issue and then an edited issue with
the same id into the empty repository. -/
theorem c8_witness :
    Repo.get_by_id (Repo.save [] issueEx) issueEx.issue_id = some issueEx ∧
    Repo.get_by_id (Repo.save (Repo.save [] issueEx) issueEx2) issueEx.issue_id
        = some issueEx2 ∧
    keyCount (Repo.save (Repo.save [] issueEx) issueEx2) issueEx.issue_id = 1 ∧
    Repo.save (Repo.save [] issueEx) issueEx = Repo.save [] issueEx :=
  c8_save_upsert [] issueEx issueEx2 (by decide) rfl

/-- C9: an issue is in the result of get_issues_by_agent exactly when it
is stored in the repository and its assigned agent carries the queried
identifier; unassigned issues never appear. -/
theorem c9_get_issues_by_agent_spec (r : Repo) (agent_id : String) (i : Issue) :
    i ∈ get_issues_by_agent r agent_id ↔
      (i ∈ Repo.get_all r ∧ ∃ a, i.agent = some a ∧ a.agent_id = agent_id) := by
  unfold get_issues_by_agent
  rw [List.mem_filter]
  constructor
  · rintro ⟨hmem, hp⟩
    refine ⟨hmem, ?_⟩
    cases hag : i.agent with
    | none =>
      rw [hag] at hp
      exact Bool.noConfusion hp
    | some a =>
      rw [hag] at hp
      exact ⟨a, rfl, of_decide_eq_true hp⟩
  · rintro ⟨hmem, a, hag, hid⟩
    refine ⟨hmem, ?_⟩
    rw [hag]
    exact decide_eq_true hid

/-- Shape of a resolve_issue call once the lookup has succeeded. -/
theorem resolve_issue_some (r : Repo) (issue_id : String) (t : Nat) (i : Issue)
    (hget : Repo.get_by_id r issue_id = some i) :
    resolve_issue r issue_id t =
      match i.resolve t with
      | Except.error e => Except.error e
      | Except.ok i' => Except.ok (Repo.save r i') := by
  unfold resolve_issue
  rw [hget]

/-- Shape of a close_issue call once the lookup has succeeded. -/
theorem close_issue_some (r : Repo) (issue_id : String) (t : Nat) (i : Issue)
    (hget : Repo.get_by_id r issue_id = some i) :
    close_issue r issue_id t =
      match i.close t with
      | Except.error e => Except.error e
      | Except.ok i' => Except.ok (Repo.save r i') := by
  unfold close_issue
  rw [hget]

/-- C10: when resolve or close fails its status precondition, the
exception is raised before any mutation: the issue keeps every field
(status, updated_at, history, agent), the failing service call returns
the error without saving, and the repository is left unchanged. -/
theorem c10_failed_transition_no_mutation (r : Repo) (issue_id : String) (t : Nat)
    (i : Issue) (hget : Repo.get_by_id r issue_id = some i) :
    (i.status ≠ IssueStatus.IN_PROGRESS →
      applyOp i (IssueOp.resolveOp t) = i ∧
      resolve_issue r issue_id t = Except.error "Issue must be IN_PROGRESS to resolve." ∧
      applyServiceOp r (ServiceOp.resolveIssueOp issue_id t) = r) ∧
    (i.status ≠ IssueStatus.RESOLVED →
      applyOp i (IssueOp.closeOp t) = i ∧
      close_issue r issue_id t = Except.error "Issue must be RESOLVED to close." ∧
      applyServiceOp r (ServiceOp.closeIssueOp issue_id t) = r) := by
  constructor
  · intro hne
    have hsvc : resolve_issue r issue_id t
        = Except.error "Issue must be IN_PROGRESS to resolve." := by
      rw [resolve_issue_some r issue_id t i hget, resolve_eq_error i t hne]
    refine ⟨applyOp_resolve_of_ne i t hne, hsvc, ?_⟩
    show (match resolve_issue r issue_id t with
      | Except.ok r' => r'
      | Except.error _ => r) = r
    rw [hsvc]
  · intro hne
    have hsvc : close_issue r issue_id t
        = Except.error "Issue must be RESOLVED to close." := by
      rw [close_issue_some r issue_id t i hget, close_eq_error i t hne]
    refine ⟨applyOp_close_of_ne i t hne, hsvc, ?_⟩
    show (match close_issue r issue_id t with
      | Except.ok r' => r'
      | Except.error _ => r) = r
    rw [hsvc]

/-- C10 witness: resolve_issue and close_issue on the concrete one-issue
repository whose sole issue is still OPEN. -/
theorem c10_witness :
    (applyOp issueEx (IssueOp.resolveOp 7) = issueEx ∧
      resolve_issue repoEx "I1" 7 = Except.error "Issue must be IN_PROGRESS to resolve." ∧
      applyServiceOp repoEx (ServiceOp.resolveIssueOp "I1" 7) = repoEx) ∧
    (applyOp issueEx (IssueOp.closeOp 7) = issueEx ∧
      close_issue repoEx "I1" 7 = Except.error "Issue must be RESOLVED to close." ∧
      applyServiceOp repoEx (ServiceOp.closeIssueOp "I1" 7) = repoEx) :=
  ⟨(c10_failed_transition_no_mutation repoEx "I1" 7 issueEx (by decide)).1 (by decide),
   (c10_failed_transition_no_mutation repoEx "I1" 7 issueEx (by decide)).2 (by decide)⟩

end CIRS
